import Mathlib

/-!
Verification of the xsync repository (src/sync.py) against its
natural-language specification.

The embedding below translates the decision logic of sync.py into Lean.
Python strings become String, Python lists become List, the dynamic
errors the script can raise (AttributeError, TypeError, AssertionError,
IndexError, NameError) become an explicit error type threaded through
Except.  External commands (find, cat over a local or remote shell) are
abstracted by an Executor record holding the raw text the commands print,
exactly as run_command returns it; all parsing of that text is done by
the embedded functions, mirroring the Python code.
-/

namespace XSync

/-- Uncaught Python exceptions that sync.py can raise. -/
inductive PyErr where
  | attributeError
  | typeError
  | assertionError
  | indexError
  | nameError
  deriving DecidableEq, Repr

/-- Extracts the payload of a successful computation, and the empty list
from a failed one.  Used only to state theorems about results that are
known (by hypothesis) to be successes. -/
def okD (e : Except PyErr (List α)) : List α :=
  match e with
  | Except.ok l => l
  | Except.error _ => []

/-- True exactly on successful results. -/
def isOkB (e : Except PyErr α) : Bool :=
  match e with
  | Except.ok _ => true
  | Except.error _ => false

/-- Python str.find: index of the first occurrence of the character, or -1. -/
def pyFind (s : String) (c : Char) : Int :=
  match s.toList.findIdx? (fun d => d == c) with
  | some i => (i : Int)
  | none => -1

/-- Resolves a (possibly negative) Python slice endpoint to a Nat index. -/
def pyIdx (len : Nat) (i : Int) : Nat :=
  if i ≥ 0 then min i.toNat len else len - (-i).toNat

/-- Python slice s[:i], with Python semantics for negative i. -/
def pySliceTo (s : String) (i : Int) : String :=
  String.mk (s.toList.take (pyIdx s.toList.length i))

/-- Python slice s[i:], with Python semantics for negative i. -/
def pySliceFrom (s : String) (i : Int) : String :=
  String.mk (s.toList.drop (pyIdx s.toList.length i))

/-- Accumulator loop for pySplitWs: walk the characters, closing the
current token at each whitespace character and dropping empty tokens. -/
def splitWsAux : List Char → List Char → List String
  | [], [] => []
  | [], acc => [String.mk acc.reverse]
  | d :: ds, acc =>
    if d.isWhitespace then
      match acc with
      | [] => splitWsAux ds []
      | _ => String.mk acc.reverse :: splitWsAux ds []
    else splitWsAux ds (d :: acc)

/-- Python str.split() with no separator: split on whitespace runs,
discarding empty pieces. -/
def pySplitWs (s : String) : List String :=
  splitWsAux s.toList []

/-- Accumulator loop for pySplitChar: close the current piece at every
occurrence of the separator, keeping empty pieces. -/
def splitCharAux (c : Char) : List Char → List Char → List String
  | [], acc => [String.mk acc.reverse]
  | d :: ds, acc =>
    if d == c then String.mk acc.reverse :: splitCharAux c ds []
    else splitCharAux c ds (d :: acc)

/-- Python s.split(c) for a one-character separator: pieces between the
occurrences of c, empty pieces kept, and one piece for an empty string. -/
def pySplitChar (s : String) (c : Char) : List String :=
  splitCharAux c s.toList []

/-- Python s.startswith(c) for a one-character anchor. -/
def pyStartsWith1 (s : String) (c : Char) : Bool :=
  match s.toList with
  | [] => false
  | d :: _ => d == c

/-- Python membership test c in s for a single character. -/
def pyContains (s : String) (c : Char) : Bool :=
  s.toList.any (fun d => d == c)

/-- Python str.strip(): remove leading and trailing whitespace. -/
def pyStripWs (s : String) : String :=
  String.mk (((s.toList.dropWhile Char.isWhitespace).reverse.dropWhile
    Char.isWhitespace).reverse)

/-- Python str.strip(c): remove leading and trailing copies of one character. -/
def pyStripChar (s : String) (c : Char) : String :=
  String.mk (((s.toList.dropWhile (fun d => d == c)).reverse.dropWhile
    (fun d => d == c)).reverse)

/-- Python s.split(c, 1): split at the first occurrence of c.  Only used
when c occurs in s; otherwise returns (s, ""). -/
def pySplit1 (s : String) (c : Char) : String × String :=
  match s.toList.findIdx? (fun d => d == c) with
  | none => (s, "")
  | some i => (String.mk (s.toList.take i), String.mk (s.toList.drop (i + 1)))

/-- Python os.path.dirname for POSIX paths: everything before the last
slash, with trailing slashes stripped unless the prefix is all slashes. -/
def dirname (p : String) : String :=
  let cs := p.toList
  match cs.reverse.findIdx? (fun d => d == '/') with
  | none => ""
  | some k =>
    let head := cs.take (cs.length - k)
    if head.all (fun d => d == '/') then String.mk head
    else String.mk ((head.reverse.dropWhile (fun d => d == '/')).reverse)

/-- Sync endpoint: a host identifier and a path (sync.py class Target). -/
structure Target where
  host : String
  path : String
  deriving DecidableEq, Repr

/-- Target.is_local from sync.py: the host is the literal "local". -/
def Target.is_local (t : Target) : Bool :=
  t.host == "local"

/-- Target.str2target from sync.py lines 70-76, exactly as written:
i = s.find(m); if i is nonnegative the result is Target("local", s),
otherwise Target(s[:i], s[i+1:]) with Python slice semantics
(so for i = -1 the host is s without its last character and the path
is s itself). -/
def Target.str2target (s : String) : Target :=
  let i := pyFind s ':'
  if i ≥ 0 then Target.mk "local" s
  else Target.mk (pySliceTo s i) (pySliceFrom s (i + 1))

/-- A Python value as far as main needs it: argparse with nargs=1 stores
opts.src as a one-element list of strings, and main passes that list,
not its element, to Target.str2target. -/
inductive PyVal where
  | str (s : String)
  | list (vs : List PyVal)

/-- Target.str2target applied to an arbitrary Python value, as main does:
the body starts with s.find, and a Python list has no attribute find,
so a list argument raises AttributeError before anything else runs. -/
def str2targetPy (v : PyVal) : Except PyErr Target :=
  match v with
  | PyVal.list _ => Except.error PyErr.attributeError
  | PyVal.str s => Except.ok (Target.str2target s)

/-- External collaborator: raw stdout of the find and cat commands that
run_command executes (locally or through ssh, which only changes the
command prefix, not the captured output). -/
structure Executor where
  findOut : Target → String → String
  catOut : String → String

/-- find_files from sync.py lines 100-106: run find (directly or via ssh)
and split its raw output on whitespace, yielding a Python list of paths. -/
def find_files (ex : Executor) (target : Target) (name : String) : List String :=
  pySplitWs (ex.findOut target name)

/-- One iteration of the loop in read_syncignore (sync.py lines 150-161):
cat one marker file, split its content on newlines, and prefix every
entry with the marker directory made relative to the target root.
For a remote target the cat command interpolates the name host, which is
undefined in that scope, so Python raises NameError before reading. -/
def readMarker (ex : Executor) (target : Target) (path : String) :
    Except PyErr (List String) :=
  if target.is_local then
    let ignored := pySplitChar (ex.catOut path) '\n'
    let reldir :=
      pyStripChar (String.mk ((dirname path).toList.drop target.path.toList.length)) '/'
    Except.ok (ignored.map (fun x => reldir ++ "/" ++ pyStripWs x))
  else
    Except.error PyErr.nameError

/-- The whole loop of read_syncignore: process marker files in discovery
order, concatenating the rewritten patterns; the first failure aborts. -/
def collectMarkers (ex : Executor) (target : Target) :
    List String → Except PyErr (List String)
  | [] => Except.ok []
  | p :: ps =>
    match readMarker ex target p with
    | Except.error e => Except.error e
    | Except.ok ig =>
      match collectMarkers ex target ps with
      | Except.error e => Except.error e
      | Except.ok rest => Except.ok (ig ++ rest)

/-- read_syncignore from sync.py lines 144-164. -/
def read_syncignore (ex : Executor) (target : Target) :
    Except PyErr (List String) :=
  collectMarkers ex target (find_files ex target ".syncignore")

/-- Parsed configuration (the SyncConf namedtuple of sync.py line 137).
Python sets are modelled as duplicate-free lists in insertion order. -/
structure SyncConf where
  only : List (String × String)
  ignore : List String
  deriving DecidableEq, Repr

/-- Python set.add: append if not already present. -/
def setAdd [DecidableEq α] (xs : List α) (x : α) : List α :=
  if x ∈ xs then xs else xs ++ [x]

/-- One iteration of the line loop of read_syncconf (sync.py lines
117-135): strip the line, skip it if it starts with a hash mark, split
it on whitespace, then dispatch on the first word.  An empty word list
makes the spl[0] access raise IndexError; a missing second word makes
spl[1] raise IndexError; an only entry without a colon, or with a host
other than local or remote, fails the corresponding assert. -/
def parseConfLine (acc : SyncConf) (rawLine : String) : Except PyErr SyncConf :=
  let line := pyStripWs rawLine
  if pyStartsWith1 line '#' then Except.ok acc
  else
    match pySplitWs line with
    | [] => Except.error PyErr.indexError
    | w :: rest =>
      if w == "only" then
        match rest with
        | [] => Except.error PyErr.indexError
        | w1 :: _ =>
          if pyContains w1 ':' then
            let hs := pySplit1 w1 ':'
            if hs.1 == "local" || hs.1 == "remote" then
              Except.ok (SyncConf.mk (setAdd acc.only hs) acc.ignore)
            else Except.error PyErr.assertionError
          else Except.error PyErr.assertionError
      else if w == "ignore" then
        match rest with
        | [] => Except.error PyErr.indexError
        | w1 :: _ => Except.ok (SyncConf.mk acc.only (setAdd acc.ignore w1))
      else Except.ok acc

/-- Folds parseConfLine over the lines of the file, stopping at the first
uncaught exception. -/
def readConfLines (acc : SyncConf) : List String → Except PyErr SyncConf
  | [] => Except.ok acc
  | l :: ls =>
    match parseConfLine acc l with
    | Except.error e => Except.error e
    | Except.ok acc2 => readConfLines acc2 ls

/-- read_syncconf from sync.py lines 110-138, over the lines of the file. -/
def read_syncconf (lines : List String) : Except PyErr SyncConf :=
  readConfLines (SyncConf.mk [] []) lines

/-- Models the split call of sync.py line 180, where clear applies a
string method to the value returned by find_files: that value is a
Python list, and a list has no attribute split, so the call raises
AttributeError no matter what the list holds or what the separator is. -/
def pyListSplit (_xs : List String) (_sep : String) : Except PyErr (List String) :=
  Except.error PyErr.attributeError

/-- The enumeration loop of clear (sync.py lines 178-180): for every only
entry whose host differs from the target host, extend the removal list
with the quoted, stripped results of the find; the split call on the
list raises AttributeError as soon as the body runs once. -/
def clearLoop (ex : Executor) (target : Target) :
    List (String × String) → List String → Except PyErr (List String)
  | [], removed => Except.ok removed
  | hs :: rest, removed =>
    if hs.1 ≠ target.host then
      match pyListSplit (find_files ex target hs.2) "\n" with
      | Except.error e => Except.error e
      | Except.ok files =>
        clearLoop ex target rest
          (removed ++ files.map (fun x => "\"" ++ pyStripWs x ++ "\""))
    else clearLoop ex target rest removed

/-- clear from sync.py lines 170-188.  A successful result is the list of
files handed to the rm command the function then runs; an error means the
function raised before reaching the rm command, so nothing is deleted. -/
def clear (ex : Executor) (target : Target) (conf : SyncConf) :
    Except PyErr (List String) :=
  clearLoop ex target conf.only []

/-- A resolved sync operation: a directional mirror with its exclusion
list, or a purge handing a file list to rm on one target. -/
inductive Op where
  | mirror (src : Target) (dest : Target) (exclude : List String)
  | purge (target : Target) (files : List String)
  deriving DecidableEq, Repr

/-- The exclusion list of a mirror operation. -/
def Op.exclude : Op → List String
  | Op.mirror _ _ e => e
  | Op.purge _ _ => []

/-- True on mirror operations. -/
def Op.isMirror : Op → Bool
  | Op.mirror _ _ _ => true
  | Op.purge _ _ => false

/-- True on purge operations. -/
def Op.isPurge : Op → Bool
  | Op.mirror _ _ _ => false
  | Op.purge _ _ => true

/-- Number of mirror operations in a sequence. -/
def countMirrors (ops : List Op) : Nat :=
  (ops.filter Op.isMirror).length

/-- Number of purge operations in a sequence. -/
def countPurges (ops : List Op) : Nat :=
  (ops.filter Op.isPurge).length

/-- rsync from sync.py lines 195-214, up to the point where the command
string is fully composed: assert that one endpoint is local, collect the
marker patterns of the source, append the global ignore set and the only
patterns owned by the source host, and resolve the mirror operation
carrying that exclusion list. -/
def rsync (ex : Executor) (conf : SyncConf) (src dest : Target) :
    Except PyErr Op :=
  if src.is_local || dest.is_local then
    match read_syncignore ex src with
    | Except.error e => Except.error e
    | Except.ok ig =>
      let ignored := ig ++ conf.ignore ++
        ((conf.only.filter (fun p => p.1 == src.host)).map Prod.snd)
      Except.ok (Op.mirror src dest ignored)
  else Except.error PyErr.assertionError

/-- Sequential effectful map: runs the calls left to right, stopping at
the first failure, exactly like the for loops of main. -/
def mapE (f : α → Except PyErr β) : List α → Except PyErr (List β)
  | [] => Except.ok []
  | x :: xs =>
    match f x with
    | Except.error e => Except.error e
    | Except.ok y =>
      match mapE f xs with
      | Except.error e => Except.error e
      | Except.ok ys => Except.ok (y :: ys)

/-- The operation sequence resolved by the three loops of main (sync.py
lines 235-245), with each rsync and clear call resolved to the operation
it constructs and the arguments the functions require (main itself
forgets the conf argument and crashes earlier; that defect is modelled
separately by mainPy below).  First loop: rsync(src, dest) for each dest;
second loop: rsync(dest, src) for each dest; third loop: clear(t, conf)
for t in [src] + dests, each clear resolving to a purge of the files it
hands to rm. -/
def resolverOps (ex : Executor) (conf : SyncConf) (src : Target)
    (dests : List Target) : Except PyErr (List Op) :=
  match mapE (fun d => rsync ex conf src d) dests with
  | Except.error e => Except.error e
  | Except.ok a =>
    match mapE (fun d => rsync ex conf d src) dests with
    | Except.error e => Except.error e
    | Except.ok b =>
      match mapE (fun t =>
          match clear ex t conf with
          | Except.error e => Except.error e
          | Except.ok r => Except.ok (Op.purge t r)) (src :: dests) with
      | Except.error e => Except.error e
      | Except.ok c => Except.ok (a ++ b ++ c)

/-- Command-line options as argparse builds them in sync.py lines 9-15:
nargs=1 makes src a one-element list of strings, nargs=plus makes dests
a list of strings. -/
structure Opts where
  src : List String
  dests : List String
  deriving DecidableEq, Repr

/-- Python assert: AssertionError when the condition is false. -/
def pyAssert (b : Bool) : Except PyErr Unit :=
  if b then Except.ok () else Except.error PyErr.assertionError

/-- The call any(Target.is_local, dests) of sync.py line 233: the builtin
any takes exactly one argument, so the two-argument call raises TypeError
regardless of the arguments. -/
def pyAnyTwoArgs (_f : Target → Bool) (_xs : List Target) : Except PyErr Bool :=
  Except.error PyErr.typeError

/-- The calls rsync(src, dest) and rsync(dest, src) of sync.py lines 237
and 241: rsync requires three positional arguments, so the two-argument
call raises TypeError at the call site, before the body runs. -/
def rsyncTwoArgs (_ex : Executor) (_src _dest : Target) : Except PyErr Op :=
  Except.error PyErr.typeError

/-- Runs a sequence of calls in order, collecting the operations of the
successful prefix and the first error, if any. -/
def runSeq : List (Except PyErr Op) → List Op × Option PyErr
  | [] => ([], none)
  | c :: cs =>
    match c with
    | Except.error e => ([], some e)
    | Except.ok op =>
      let r := runSeq cs
      (op :: r.1, r.2)

/-- main from sync.py lines 221-245, exactly as written: read the
configuration, pass the list opts.src to Target.str2target, parse the
dests, assert the source is local, call any with two arguments, then run
the three loops with the two-argument rsync calls and the clear calls.
The result pairs the operations issued before the first uncaught
exception with that exception. -/
def mainPy (confLines : List String) (ex : Executor) (opts : Opts) :
    List Op × Option PyErr :=
  match read_syncconf confLines with
  | Except.error e => ([], some e)
  | Except.ok conf =>
    match str2targetPy (PyVal.list (opts.src.map PyVal.str)) with
    | Except.error e => ([], some e)
    | Except.ok src =>
      let dests := opts.dests.map Target.str2target
      match pyAssert src.is_local with
      | Except.error e => ([], some e)
      | Except.ok _ =>
        match pyAnyTwoArgs Target.is_local dests with
        | Except.error e => ([], some e)
        | Except.ok anyLocal =>
          match pyAssert (!anyLocal) with
          | Except.error e => ([], some e)
          | Except.ok _ =>
            runSeq
              ((dests.map (fun d => rsyncTwoArgs ex src d)) ++
               (dests.map (fun d => rsyncTwoArgs ex d src)) ++
               ((src :: dests).map (fun t =>
                 match clear ex t conf with
                 | Except.error e => Except.error e
                 | Except.ok r => Except.ok (Op.purge t r))))

/-! Concrete fixtures used by the theorems below: a local hub, one remote
destination, and executors describing small filesystem states through the
raw text their find and cat commands print. -/

/-- The local source target of the scenarios below. -/
def projT : Target := Target.mk "local" "/proj"

/-- A remote destination target. -/
def hostAT : Target := Target.mk "hostA" "/proj"

/-- An executor over empty trees: find prints nothing, cat prints nothing. -/
def exEmpty : Executor := Executor.mk (fun _ _ => "") (fun _ => "")

/-- The configuration with empty only and ignore sets. -/
def confEmpty : SyncConf := SyncConf.mk [] []

/-- An executor whose tree under /proj holds two ignore-marker files, one
in the subdirectory sub with content x and one at the root with content y. -/
def exSix (x y : String) : Executor :=
  Executor.mk
    (fun t n =>
      if t.path == "/proj" && n == ".syncignore" then
        "/proj/sub/.syncignore\n/proj/.syncignore\n"
      else "")
    (fun p =>
      if p == "/proj/sub/.syncignore" then x
      else if p == "/proj/.syncignore" then y
      else "")

/-- An executor whose tree under /proj holds a single root-level
ignore-marker file with the one-line content y. -/
def exRootY : Executor :=
  Executor.mk
    (fun _ n => if n == ".syncignore" then "/proj/.syncignore\n" else "")
    (fun _ => "y")

/-- An executor with one root-level marker file containing the pattern m. -/
def exMarkM : Executor :=
  Executor.mk
    (fun _ n => if n == ".syncignore" then "/proj/.syncignore\n" else "")
    (fun _ => "m")

/-- A configuration with only entries for both hosts and one global
ignore pattern. -/
def confMix : SyncConf :=
  SyncConf.mk [("local", "g"), ("remote", "r")] ["i"]

/-- An executor under whose target two files match the pattern of
confBak; find prints their paths. -/
def exBak : Executor :=
  Executor.mk (fun _ _ => "/proj/a.bak\n/proj/b.bak\n") (fun _ => "")

/-- A configuration whose single only entry belongs to the host remote,
so it must be purged from every target with a different host. -/
def confBak : SyncConf := SyncConf.mk [("remote", "*.bak")] []

/-- Claim C1: the claim says that for every destination the pull
operation (mirror dest to source) appears strictly before the push
operation (mirror source to dest).  Evaluating the resolver loop
structure of main at a local source, one remote destination and the
empty configuration shows the opposite order: the first loop resolves
the push, mirror source to dest, at index 0, and the pull, mirror dest
to source, only at index 1 (main comments its first loop as syncing
remotes to local but calls rsync(src, dest) there). -/
theorem claim_C1_push_resolved_before_pull :
    resolverOps exEmpty confEmpty projT [hostAT] =
      Except.ok [Op.mirror projT hostAT [], Op.mirror hostAT projT [],
        Op.purge projT [], Op.purge hostAT []] ∧
    [Op.mirror projT hostAT [], Op.mirror hostAT projT [],
        Op.purge projT [], Op.purge hostAT []].findIdx?
      (fun o => o == Op.mirror projT hostAT []) = some 0 ∧
    [Op.mirror projT hostAT [], Op.mirror hostAT projT [],
        Op.purge projT [], Op.purge hostAT []].findIdx?
      (fun o => o == Op.mirror hostAT projT []) = some 1 :=
  ⟨rfl, rfl, rfl⟩

/-- Claim C3: evaluating clear at a local target and a configuration
whose only set holds the entry (remote, *.bak), with an executor under
which two files match the pattern, shows that clear raises
AttributeError (the split call on the list find_files returns) before
any purge is resolved, so the purge never includes the matching files
the claim promises. -/
theorem claim_C3_clear_raises_before_purge :
    find_files exBak projT "*.bak" = ["/proj/a.bak", "/proj/b.bak"] ∧
    clear exBak projT confBak = Except.error PyErr.attributeError :=
  ⟨rfl, rfl⟩

/-- Claim C4 counterexample: with the empty configuration and one
destination the resolved sequence does contain 2 mirror operations, but
it also contains 2 purge operations (clear runs its rm command for the
source and for the destination even when there is nothing to remove),
refuting the claimed zero purge operations. -/
theorem claim_C4_counterexample :
    resolverOps exEmpty confEmpty projT [hostAT] =
      Except.ok [Op.mirror projT hostAT [], Op.mirror hostAT projT [],
        Op.purge projT [], Op.purge hostAT []] ∧
    countMirrors [Op.mirror projT hostAT [], Op.mirror hostAT projT [],
        Op.purge projT [], Op.purge hostAT []] = 2 ∧
    countPurges [Op.mirror projT hostAT [], Op.mirror hostAT projT [],
        Op.purge projT [], Op.purge hostAT []] ≠ 0 :=
  ⟨rfl, rfl, by decide⟩

/-- Claim C5: the claim says a spec with a colon parses to a remote
target with the given host and path, and a spec without a colon to a
local target.  Evaluating Target.str2target shows the branches are
swapped: the spec hostA:/proj, which contains a colon, yields the local
target whose path is the whole unsplit spec, and the spec data, which
contains no colon, yields a non-local target whose host is the spec
minus its last character. -/
theorem claim_C5_str2target_branches_swapped :
    Target.str2target "hostA:/proj" = Target.mk "local" "hostA:/proj" ∧
    (Target.str2target "hostA:/proj").is_local = true ∧
    Target.str2target "data" = Target.mk "dat" "data" ∧
    (Target.str2target "data").is_local = false :=
  ⟨rfl, rfl, rfl, rfl⟩

/-- Claim C6 counterexample: a marker file at the target root containing
the single pattern y is rewritten to /y, with a leading path separator,
not to the bare y the claim states (the code always prepends the
relative directory and a separator, even when the relative directory is
empty). -/
theorem claim_C6_counterexample :
    read_syncignore exRootY projT = Except.ok ["/y"] ∧
    read_syncignore exRootY projT ≠ Except.ok ["y"] := by
  refine ⟨rfl, fun h => ?_⟩
  have h3 : (Except.ok ["/y"] : Except PyErr (List String)) = Except.ok ["y"] :=
    (rfl : read_syncignore exRootY projT = Except.ok ["/y"]).symm.trans h
  have h2 : (["/y"] : List String) = ["y"] := by injection h3
  exact absurd h2 (by decide)

/-- Claim C7: loading does skip comment lines, but a blank line makes
read_syncconf raise IndexError (the access spl[0] on the empty word
list of the stripped blank line), instead of being skipped as the claim
states: the same file succeeds without the blank line and fails with it. -/
theorem claim_C7_blank_line_raises :
    read_syncconf ["# comment", "only local:a"] =
      Except.ok (SyncConf.mk [("local", "a")] []) ∧
    read_syncconf ["# comment", "", "only local:a"] =
      Except.error PyErr.indexError :=
  ⟨rfl, rfl⟩

/-- Claim C8 counterexample: a line with the unknown keyword foo does
not fail at all; loading succeeds and the line is silently ignored,
refuting the claim that such lines fail with a ConfigError naming the
line and its number. -/
theorem claim_C8_counterexample :
    read_syncconf ["foo bar", "only local:a"] =
      Except.ok (SyncConf.mk [("local", "a")] []) :=
  rfl

/-- Claim C9: for every configuration file content, executor and command
line, main raises an uncaught exception before any mirror operation is
issued: the operation trace is empty and the error slot is filled (when
the configuration parses, the error is the AttributeError raised by
passing the list opts.src to Target.str2target). -/
theorem claim_C9_main_always_raises (confLines : List String) (ex : Executor)
    (opts : Opts) :
    (mainPy confLines ex opts).1 = [] ∧
    (mainPy confLines ex opts).2.isSome = true := by
  unfold mainPy
  split
  · exact ⟨rfl, rfl⟩
  · exact ⟨rfl, rfl⟩

/-- The enumeration loop of clear raises AttributeError as soon as it
meets an only entry whose host differs from the target host, whatever
was accumulated so far. -/
theorem clearLoop_attributeError (ex : Executor) (t : Target) :
    ∀ (l : List (String × String)) (removed : List String),
      (∃ hs, hs ∈ l ∧ hs.1 ≠ t.host) →
      clearLoop ex t l removed = Except.error PyErr.attributeError := by
  intro l
  induction l with
  | nil =>
    intro removed h
    obtain ⟨hs, hmem, _⟩ := h
    cases hmem
  | cons a l ih =>
    intro removed h
    obtain ⟨hs, hmem, hne⟩ := h
    by_cases ha : a.1 ≠ t.host
    · simp [clearLoop, ha, pyListSplit]
    · have hsl : hs ∈ l := by
        rcases List.mem_cons.mp hmem with heq | hsl
        · exact absurd (heq ▸ hne) ha
        · exact hsl
      simp only [clearLoop, if_neg ha]
      exact ih removed ⟨hs, hsl, hne⟩

/-- Claim C10: for every executor, target and configuration whose only
set holds at least one entry with a host different from the target host,
clear raises AttributeError (calling a string split method on the list
find_files returns) before reaching its rm command, so no file is ever
deleted whenever there is something to purge. -/
theorem claim_C10_clear_never_deletes (ex : Executor) (t : Target)
    (conf : SyncConf) (h : ∃ hs, hs ∈ conf.only ∧ hs.1 ≠ t.host) :
    clear ex t conf = Except.error PyErr.attributeError :=
  clearLoop_attributeError ex t conf.only [] h

/-- Claim C10 witness: a remote target and a configuration owning the
pattern secret to the local host satisfy the hypothesis, and clear
indeed raises before deleting anything. -/
theorem claim_C10_witness :
    clear exEmpty hostAT (SyncConf.mk [("local", "secret")] []) =
      Except.error PyErr.attributeError :=
  claim_C10_clear_never_deletes exEmpty hostAT
    (SyncConf.mk [("local", "secret")] [])
    ⟨("local", "secret"), by decide, by decide⟩

/-- Claim C2: whenever rsync resolves a mirror operation, a pattern is
in its exclusion list exactly when it was collected from the ignore
marker files of the mirror source, or is in the global ignore set of the
configuration, or is the pattern of an only entry whose host equals the
source host. -/
theorem claim_C2_exclusion_union (ex : Executor) (conf : SyncConf)
    (src dest : Target) (op : Op) (x : String)
    (h : rsync ex conf src dest = Except.ok op) :
    x ∈ op.exclude ↔
      x ∈ okD (read_syncignore ex src) ∨ x ∈ conf.ignore ∨
        ∃ p, p ∈ conf.only ∧ p.1 = src.host ∧ p.2 = x := by
  unfold rsync at h
  split at h
  · rename_i hloc
    cases hig : read_syncignore ex src with
    | error e => rw [hig] at h; cases h
    | ok ig =>
      rw [hig] at h
      have hop :
          Op.mirror src dest (ig ++ conf.ignore ++
            ((conf.only.filter (fun p => p.1 == src.host)).map Prod.snd)) = op := by
        injection h
      rw [← hop]
      simp only [Op.exclude, hig, okD, List.mem_append, List.mem_map,
        List.mem_filter, beq_iff_eq]
      constructor
      · rintro ((h1 | h2) | ⟨p, ⟨hp1, hp2⟩, hp3⟩)
        · exact Or.inl h1
        · exact Or.inr (Or.inl h2)
        · exact Or.inr (Or.inr ⟨p, hp1, hp2, hp3⟩)
      · rintro (h1 | h2 | ⟨p, hp1, hp2, hp3⟩)
        · exact Or.inl (Or.inl h1)
        · exact Or.inl (Or.inr h2)
        · exact Or.inr ⟨p, ⟨hp1, hp2⟩, hp3⟩
  · cases h

/-- Claim C2 witness: at a local source whose tree holds one marker file
with pattern m, a configuration with global ignore i and only entries
(local, g) and (remote, r), the resolved exclusion list is exactly
m rewritten, i and g, and the theorem places g in it through the only
entry owned by the source host. -/
theorem claim_C2_witness :
    "g" ∈ Op.exclude (Op.mirror projT hostAT ["/m", "i", "g"]) :=
  (claim_C2_exclusion_union exMarkM confMix projT hostAT
      (Op.mirror projT hostAT ["/m", "i", "g"]) "g" rfl).mpr
    (Or.inr (Or.inr ⟨("local", "g"), by decide, rfl, rfl⟩))

/-- Claim C8 amended: a non-comment, non-blank line whose keyword is
neither only nor ignore is silently ignored, leaving the configuration
unchanged and loading successful; an only line whose second word
contains no colon fails with a bare AssertionError carrying neither the
offending line nor a line number (the code has no ConfigError). -/
theorem claim_C8_amended :
    (∀ (acc : SyncConf) (line w : String) (rest : List String),
      pySplitWs (pyStripWs line) = w :: rest →
      pyStartsWith1 (pyStripWs line) '#' = false →
      w ≠ "only" → w ≠ "ignore" →
      parseConfLine acc line = Except.ok acc) ∧
    (∀ (acc : SyncConf) (line w1 : String) (rest : List String),
      pySplitWs (pyStripWs line) = "only" :: w1 :: rest →
      pyStartsWith1 (pyStripWs line) '#' = false →
      pyContains w1 ':' = false →
      parseConfLine acc line = Except.error PyErr.assertionError) := by
  constructor
  · intro acc line w rest hsplit hhash hw1 hw2
    have hb1 : (w == "only") = false := by simpa using hw1
    have hb2 : (w == "ignore") = false := by simpa using hw2
    simp [parseConfLine, hsplit, hhash, hb1, hb2]
  · intro acc line w1 rest hsplit hhash hcol
    simp [parseConfLine, hsplit, hhash, hcol]

/-- Claim C8 witness: the unknown-keyword line foo bar loads without
error and without effect, and the malformed line only nocolon fails
with AssertionError. -/
theorem claim_C8_witness :
    parseConfLine confEmpty "foo bar" = Except.ok confEmpty ∧
    parseConfLine confEmpty "only nocolon" =
      Except.error PyErr.assertionError :=
  ⟨claim_C8_amended.1 confEmpty "foo bar" "foo" ["bar"] rfl rfl
      (by decide) (by decide),
    claim_C8_amended.2 confEmpty "only nocolon" "nocolon" [] rfl rfl rfl⟩

/-- Claim C6 amended: every pattern of a marker file is rewritten to the
marker directory made relative to the target root, stripped of
surrounding slashes, followed by one path separator and the stripped
pattern: a marker at /proj/sub/.syncignore containing x yields sub/x,
while a marker at /proj/.syncignore containing y yields /y, keeping a
leading separator because the separator is prepended even when the
relative prefix is empty. -/
theorem claim_C6_amended (x y : String)
    (hx1 : pySplitChar x '\n' = [x]) (hx2 : pyStripWs x = x)
    (hy1 : pySplitChar y '\n' = [y]) (hy2 : pyStripWs y = y) :
    read_syncignore (exSix x y) projT =
      Except.ok ["sub/" ++ x, "/" ++ y] := by
  have hm1 : readMarker (exSix x y) projT "/proj/sub/.syncignore" =
      Except.ok ["sub/" ++ x] := by
    have hc1 : (exSix x y).catOut "/proj/sub/.syncignore" = x := rfl
    simp only [readMarker, hc1, hx1]
    rw [if_pos (show projT.is_local = true from rfl)]
    have hr1 : pyStripChar (String.mk
        ((dirname "/proj/sub/.syncignore").toList.drop
          projT.path.toList.length)) '/' = "sub" := rfl
    simp only [List.map_cons, List.map_nil, hr1, hx2]
    rw [show ("sub" : String) ++ "/" = "sub/" from rfl]
  have hm2 : readMarker (exSix x y) projT "/proj/.syncignore" =
      Except.ok ["/" ++ y] := by
    have hc2 : (exSix x y).catOut "/proj/.syncignore" = y := rfl
    simp only [readMarker, hc2, hy1]
    rw [if_pos (show projT.is_local = true from rfl)]
    have hr2 : pyStripChar (String.mk
        ((dirname "/proj/.syncignore").toList.drop
          projT.path.toList.length)) '/' = "" := rfl
    simp only [List.map_cons, List.map_nil, hr2, hy2]
    rw [show ("" : String) ++ "/" = "/" from rfl]
  have hf : find_files (exSix x y) projT ".syncignore" =
      ["/proj/sub/.syncignore", "/proj/.syncignore"] := rfl
  unfold read_syncignore
  rw [hf]
  simp [collectMarkers, hm1, hm2]

/-- Claim C6 witness: with marker contents x and y the rewritten
patterns are sub/x and /y. -/
theorem claim_C6_witness :
    read_syncignore (exSix "x" "y") projT = Except.ok ["sub/x", "/y"] :=
  claim_C6_amended "x" "y" rfl rfl rfl rfl

/-- On a local target every marker file is processed successfully, so
the collection loop of read_syncignore always succeeds. -/
theorem collectMarkers_local_ok (ex : Executor) (t : Target)
    (ht : t.is_local = true) :
    ∀ ps : List String, ∃ l, collectMarkers ex t ps = Except.ok l := by
  intro ps
  induction ps with
  | nil => exact ⟨[], rfl⟩
  | cons p ps ih =>
    obtain ⟨l, hl⟩ := ih
    cases hm : readMarker ex t p with
    | error e =>
      exfalso
      unfold readMarker at hm
      rw [if_pos ht] at hm
      cases hm
    | ok ig => exact ⟨ig ++ l, by simp only [collectMarkers, hm, hl]⟩

/-- read_syncignore always succeeds on a local target. -/
theorem read_syncignore_local_ok (ex : Executor) (t : Target)
    (ht : t.is_local = true) :
    ∃ l, read_syncignore ex t = Except.ok l :=
  collectMarkers_local_ok ex t ht (find_files ex t ".syncignore")

/-- When one endpoint is local and the marker collection of the source
succeeds, rsync resolves the mirror operation whose exclusion list is
the collected patterns followed by the global ignore set and the only
patterns owned by the source host. -/
theorem rsync_ok_of (ex : Executor) (conf : SyncConf) (src dest : Target)
    (ig : List String) (hloc : (src.is_local || dest.is_local) = true)
    (hig : read_syncignore ex src = Except.ok ig) :
    rsync ex conf src dest = Except.ok (Op.mirror src dest
      (ig ++ conf.ignore ++
        ((conf.only.filter (fun p => p.1 == src.host)).map Prod.snd))) := by
  unfold rsync
  rw [if_pos hloc, hig]

/-- A sequential map whose calls all succeed pointwise returns the list
of their results. -/
theorem mapE_ok_of_pointwise (f : α → Except PyErr β) (g : α → β) :
    ∀ l : List α, (∀ a ∈ l, f a = Except.ok (g a)) →
      mapE f l = Except.ok (l.map g) := by
  intro l
  induction l with
  | nil => intro _; rfl
  | cons a l ih =>
    intro h
    have ha := h a (List.mem_cons_self a l)
    have hl := ih (fun b hb => h b (List.mem_cons_of_mem a hb))
    simp only [mapE, ha, hl, List.map_cons]

/-- Mirror counting distributes over the three phases. -/
theorem countMirrors_append3 (A B C : List Op) :
    countMirrors (A ++ B ++ C) =
      countMirrors A + countMirrors B + countMirrors C := by
  simp [countMirrors, List.filter_append]
  omega

/-- Purge counting distributes over the three phases. -/
theorem countPurges_append3 (A B C : List Op) :
    countPurges (A ++ B ++ C) =
      countPurges A + countPurges B + countPurges C := by
  simp [countPurges, List.filter_append]
  omega

/-- A list of mirror operations counts as many mirrors as elements. -/
theorem countMirrors_map_mirror (f1 f2 : α → Target) (f3 : α → List String) :
    ∀ l : List α,
      countMirrors (l.map (fun a => Op.mirror (f1 a) (f2 a) (f3 a))) =
        l.length := by
  intro l
  induction l with
  | nil => rfl
  | cons a l ih =>
    simp only [countMirrors] at ih ⊢
    simp [List.filter_cons, Op.isMirror, ih]

/-- A list of purge operations counts no mirrors. -/
theorem countMirrors_map_purge (f1 : α → Target) (f2 : α → List String) :
    ∀ l : List α,
      countMirrors (l.map (fun a => Op.purge (f1 a) (f2 a))) = 0 := by
  intro l
  induction l with
  | nil => rfl
  | cons a l ih =>
    simp only [countMirrors] at ih ⊢
    simp [List.filter_cons, Op.isMirror, ih]

/-- A list of mirror operations counts no purges. -/
theorem countPurges_map_mirror (f1 f2 : α → Target) (f3 : α → List String) :
    ∀ l : List α,
      countPurges (l.map (fun a => Op.mirror (f1 a) (f2 a) (f3 a))) = 0 := by
  intro l
  induction l with
  | nil => rfl
  | cons a l ih =>
    simp only [countPurges] at ih ⊢
    simp [List.filter_cons, Op.isPurge, ih]

/-- A list of purge operations counts as many purges as elements. -/
theorem countPurges_map_purge (f1 : α → Target) (f2 : α → List String) :
    ∀ l : List α,
      countPurges (l.map (fun a => Op.purge (f1 a) (f2 a))) = l.length := by
  intro l
  induction l with
  | nil => rfl
  | cons a l ih =>
    simp only [countPurges] at ih ⊢
    simp [List.filter_cons, Op.isPurge, ih]

/-- Claim C4 amended: for the configuration with empty only and ignore
sets, a local source and any list of destinations whose marker
collections succeed, the resolved sequence holds exactly 2 times as many
mirror operations as destinations, and additionally one purge operation
per participating target (clear reaches its rm command for the source
and every destination), every purge carrying an empty file list, so
nothing is removed. -/
theorem claim_C4_amended (ex : Executor) (src : Target)
    (dests : List Target) (hsrc : src.is_local = true)
    (hex : ∀ d ∈ dests, ∃ l, read_syncignore ex d = Except.ok l) :
    isOkB (resolverOps ex confEmpty src dests) = true ∧
    countMirrors (okD (resolverOps ex confEmpty src dests)) =
      2 * dests.length ∧
    countPurges (okD (resolverOps ex confEmpty src dests)) =
      dests.length + 1 ∧
    ∀ t files, Op.purge t files ∈ okD (resolverOps ex confEmpty src dests) →
      files = [] := by
  obtain ⟨igS, higS⟩ := read_syncignore_local_ok ex src hsrc
  have h1 : mapE (fun d => rsync ex confEmpty src d) dests =
      Except.ok (dests.map (fun d => Op.mirror src d
        (igS ++ confEmpty.ignore ++
          ((confEmpty.only.filter (fun p => p.1 == src.host)).map
            Prod.snd)))) := by
    apply mapE_ok_of_pointwise
    intro d _
    exact rsync_ok_of ex confEmpty src d igS (by rw [hsrc, Bool.true_or]) higS
  have h2 : mapE (fun d => rsync ex confEmpty d src) dests =
      Except.ok (dests.map (fun d => Op.mirror d src
        (okD (read_syncignore ex d) ++ confEmpty.ignore ++
          ((confEmpty.only.filter (fun p => p.1 == d.host)).map
            Prod.snd)))) := by
    apply mapE_ok_of_pointwise
    intro d hd
    obtain ⟨l, hl⟩ := hex d hd
    rw [hl]
    exact rsync_ok_of ex confEmpty d src l (by rw [hsrc, Bool.or_true]) hl
  have h3 : mapE (fun t =>
      match clear ex t confEmpty with
      | Except.error e => Except.error e
      | Except.ok r => Except.ok (Op.purge t r)) (src :: dests) =
      Except.ok ((src :: dests).map (fun t => Op.purge t [])) := by
    apply mapE_ok_of_pointwise
    intro t _
    rfl
  have hres : resolverOps ex confEmpty src dests =
      Except.ok (dests.map (fun d => Op.mirror src d
          (igS ++ confEmpty.ignore ++
            ((confEmpty.only.filter (fun p => p.1 == src.host)).map
              Prod.snd))) ++
        dests.map (fun d => Op.mirror d src
          (okD (read_syncignore ex d) ++ confEmpty.ignore ++
            ((confEmpty.only.filter (fun p => p.1 == d.host)).map
              Prod.snd))) ++
        (src :: dests).map (fun t => Op.purge t [])) := by
    unfold resolverOps
    rw [h1, h2, h3]
  refine ⟨?_, ?_, ?_, ?_⟩
  · rw [hres]; rfl
  · rw [hres]
    simp only [okD]
    rw [countMirrors_append3, countMirrors_map_mirror, countMirrors_map_mirror,
      countMirrors_map_purge]
    omega
  · rw [hres]
    simp only [okD]
    rw [countPurges_append3, countPurges_map_mirror, countPurges_map_mirror,
      countPurges_map_purge]
    simp only [List.length_cons]
    omega
  · intro t files hmem
    rw [hres] at hmem
    simp only [okD, List.mem_append, List.mem_map] at hmem
    rcases hmem with (⟨d, _, heq⟩ | ⟨d, _, heq⟩) | ⟨a, _, heq⟩
    · cases heq
    · cases heq
    · cases heq
      rfl

/-- Claim C4 witness: at the empty configuration, the local source and
one remote destination with empty trees, the resolver succeeds with 2
mirror operations and 2 purge operations. -/
theorem claim_C4_witness :
    isOkB (resolverOps exEmpty confEmpty projT [hostAT]) = true ∧
    countMirrors (okD (resolverOps exEmpty confEmpty projT [hostAT])) = 2 ∧
    countPurges (okD (resolverOps exEmpty confEmpty projT [hostAT])) = 2 := by
  have hex : ∀ d ∈ [hostAT], ∃ l, read_syncignore exEmpty d = Except.ok l := by
    intro d hd
    rw [List.mem_singleton] at hd
    subst hd
    exact ⟨[], rfl⟩
  have h := claim_C4_amended exEmpty projT [hostAT] rfl hex
  exact ⟨h.1, h.2.1, h.2.2.1⟩

end XSync
